import Mathlib

/-!
# Verification of `src/baklava/src/electron.ts` (DogeHouse desktop shell)

A shallow embedding of the decision logic of the Electron main-process script:
the navigation/external-link interception (`handleLinks`), the splash-to-main
window handoff timers (`skipUpdateCheck`), the single-instance gate, the IPC
window-control handlers, and the window creation options.

Platform booleans (`isLinux`, `isMac`, `isWin`) and the allow-list
`ALLOWED_HOSTS` are imported by the script from `./constants`; handlers are
parameterised over them here.
-/

namespace Baklava

/-! ## URLs and navigation interception (`handleLinks`, electron.ts lines 138-162) -/

/-- A parsed URL as the handler sees it: `new URL(url)` yields `hostname` and
`pathname`; `shell.openExternal(url)` receives the raw string `raw`. -/
structure URL where
  raw : String
  hostname : String
  pathname : String
deriving DecidableEq, Repr

/-- The observable effect of one run of `handleLinks`: whether
`event.preventDefault()` was called, and the argument of `shell.openExternal`
if it was called (`none` when it was not). -/
structure NavResult where
  prevented : Bool
  openedExternal : Option String
deriving DecidableEq, Repr

/-- Embedding of the `handleLinks` callback (electron.ts lines 138-160).
If the hostname is not in `ALLOWED_HOSTS`, navigation is prevented and the URL
opened externally.  Otherwise, for the host at index 3 every pathname except
`/login`, `/session`, `/sessions/two-factor`, `/sessions/two-factor/webauthn`,
and for the host at index 8 every pathname except `/account/login_verification`,
is likewise prevented and opened externally; all remaining cases do nothing. -/
def handleLinks (allowedHosts : List String) (u : URL) : NavResult :=
  if u.hostname ∉ allowedHosts then
    { prevented := true, openedExternal := some u.raw }
  else
    if (allowedHosts.get? 3 = some u.hostname ∧
          u.pathname ≠ "/login" ∧
          u.pathname ≠ "/session" ∧
          u.pathname ≠ "/sessions/two-factor" ∧
          u.pathname ≠ "/sessions/two-factor/webauthn") ∨
       (allowedHosts.get? 8 = some u.hostname ∧
          u.pathname ≠ "/account/login_verification") then
      { prevented := true, openedExternal := some u.raw }
    else
      { prevented := false, openedExternal := none }

/-- The two webContents events the script wires to `handleLinks`
(electron.ts lines 161-162). -/
inductive NavEvent
  | newWindow
  | willNavigate
deriving DecidableEq, Repr

/-- Both `new-window` and `will-navigate` dispatch to the same `handleLinks`
callback (electron.ts lines 161-162). -/
def navHandler (ev : NavEvent) (allowedHosts : List String) (u : URL) : NavResult :=
  match ev with
  | .newWindow => handleLinks allowedHosts u
  | .willNavigate => handleLinks allowedHosts u

/-- Modelled from the spec: `ALLOWED_HOSTS` is defined in `./constants`, a file
that is not among the sources; the spec describes it only as "a fixed list of
hostnames".  We model a representative fixed list of nine distinct hostnames,
with the host carrying the login/session/two-factor path exclusions at index 3
and the host carrying the `/account/login_verification` exclusion at index 8,
as `handleLinks` requires. -/
def ALLOWED_HOSTS : List String :=
  ["dogehouse.tv", "discord.com", "discordapp.com", "github.com",
   "accounts.google.com", "accounts.spotify.com", "api.twitter.com",
   "twitch.tv", "twitter.com"]

/-- C1: for every navigation or new-window URL whose hostname is not a member
of `ALLOWED_HOSTS`, the handler prevents the in-app navigation
(`event.preventDefault`) and opens that URL externally
(`shell.openExternal`), for both the `new-window` and `will-navigate` events. -/
theorem handleLinks_blocks_nonAllowed_hosts
    (ev : NavEvent) (allowedHosts : List String) (u : URL)
    (h : u.hostname ∉ allowedHosts) :
    (navHandler ev allowedHosts u).prevented = true ∧
    (navHandler ev allowedHosts u).openedExternal = some u.raw := by
  cases ev <;> simp [navHandler, handleLinks, h]

/-- C1 witness: a concrete non-allow-listed host is prevented and opened
externally. -/
theorem handleLinks_blocks_nonAllowed_hosts_witness :
    ("evil.example" ∉ ALLOWED_HOSTS) ∧
    (navHandler .newWindow ALLOWED_HOSTS
        ⟨"https://evil.example/x", "evil.example", "/x"⟩).prevented = true ∧
    (navHandler .newWindow ALLOWED_HOSTS
        ⟨"https://evil.example/x", "evil.example", "/x"⟩).openedExternal =
      some "https://evil.example/x" :=
  ⟨by decide,
   (handleLinks_blocks_nonAllowed_hosts .newWindow ALLOWED_HOSTS
      ⟨"https://evil.example/x", "evil.example", "/x"⟩ (by decide)).1,
   (handleLinks_blocks_nonAllowed_hosts .newWindow ALLOWED_HOSTS
      ⟨"https://evil.example/x", "evil.example", "/x"⟩ (by decide)).2⟩

/-- Helper: full characterisation of `handleLinks` on the host at index 3
(exclusion paths permitted in-app, all other paths redirected externally),
assuming the hosts at indices 3 and 8 differ. -/
theorem handleLinks_host3_spec
    (allowedHosts : List String) (h3 h8 : String) (u : URL)
    (hg3 : allowedHosts.get? 3 = some h3)
    (hg8 : allowedHosts.get? 8 = some h8)
    (hne : h3 ≠ h8)
    (hu : u.hostname = h3) :
    (u.pathname = "/login" ∨ u.pathname = "/session" ∨
       u.pathname = "/sessions/two-factor" ∨
       u.pathname = "/sessions/two-factor/webauthn" →
       handleLinks allowedHosts u = ⟨false, none⟩) ∧
    (u.pathname ≠ "/login" → u.pathname ≠ "/session" →
       u.pathname ≠ "/sessions/two-factor" →
       u.pathname ≠ "/sessions/two-factor/webauthn" →
       handleLinks allowedHosts u = ⟨true, some u.raw⟩) := by
  have hmem : u.hostname ∈ allowedHosts := by
    rw [hu]; exact List.get?_mem hg3
  have h8ne : ¬ allowedHosts.get? 8 = some u.hostname := by
    rw [hg8, hu]
    intro hc
    exact hne (Option.some.injEq .. ▸ hc).symm
  constructor
  · intro hp
    rw [handleLinks, if_neg (by simpa using hmem), if_neg]
    rintro (⟨-, hl, hs, ht, hw⟩ | ⟨hc, -⟩)
    · rcases hp with h | h | h | h
      exacts [hl h, hs h, ht h, hw h]
    · exact h8ne hc
  · intro hl hs ht hw
    rw [handleLinks, if_neg (by simpa using hmem), if_pos]
    exact Or.inl ⟨by rw [hg3, hu], hl, hs, ht, hw⟩

/-- Helper: full characterisation of `handleLinks` on the host at index 8
(`/account/login_verification` permitted in-app, all other paths redirected
externally), assuming the hosts at indices 3 and 8 differ. -/
theorem handleLinks_host8_spec
    (allowedHosts : List String) (h3 h8 : String) (u : URL)
    (hg3 : allowedHosts.get? 3 = some h3)
    (hg8 : allowedHosts.get? 8 = some h8)
    (hne : h3 ≠ h8)
    (hu : u.hostname = h8) :
    (u.pathname = "/account/login_verification" →
       handleLinks allowedHosts u = ⟨false, none⟩) ∧
    (u.pathname ≠ "/account/login_verification" →
       handleLinks allowedHosts u = ⟨true, some u.raw⟩) := by
  have hmem : u.hostname ∈ allowedHosts := by
    rw [hu]; exact List.get?_mem hg8
  have h3ne : ¬ allowedHosts.get? 3 = some u.hostname := by
    rw [hg3, hu]
    intro hc
    exact hne (Option.some.injEq .. ▸ hc)
  constructor
  · intro hp
    rw [handleLinks, if_neg (by simpa using hmem), if_neg]
    rintro (⟨hc, -⟩ | ⟨-, hv⟩)
    · exact h3ne hc
    · exact hv hp
  · intro hv
    rw [handleLinks, if_neg (by simpa using hmem), if_pos]
    exact Or.inr ⟨by rw [hg8, hu], hv⟩

/-- C2: for the two allow-listed hosts carrying path exclusion lists (index 3
with `/login`, `/session`, `/sessions/two-factor`,
`/sessions/two-factor/webauthn`; index 8 with
`/account/login_verification`), navigation to a URL whose exact path is on the
host's exclusion list is permitted in-app (no `preventDefault`, no external
open), while navigation to any other path on that host is prevented in-app and
redirected externally, on both wired events. -/
theorem handleLinks_path_exclusions
    (ev : NavEvent) (allowedHosts : List String) (h3 h8 : String) (u : URL)
    (hg3 : allowedHosts.get? 3 = some h3)
    (hg8 : allowedHosts.get? 8 = some h8)
    (hne : h3 ≠ h8) :
    (u.hostname = h3 →
      (u.pathname = "/login" ∨ u.pathname = "/session" ∨
         u.pathname = "/sessions/two-factor" ∨
         u.pathname = "/sessions/two-factor/webauthn" →
         navHandler ev allowedHosts u = ⟨false, none⟩) ∧
      (u.pathname ≠ "/login" → u.pathname ≠ "/session" →
         u.pathname ≠ "/sessions/two-factor" →
         u.pathname ≠ "/sessions/two-factor/webauthn" →
         navHandler ev allowedHosts u = ⟨true, some u.raw⟩)) ∧
    (u.hostname = h8 →
      (u.pathname = "/account/login_verification" →
         navHandler ev allowedHosts u = ⟨false, none⟩) ∧
      (u.pathname ≠ "/account/login_verification" →
         navHandler ev allowedHosts u = ⟨true, some u.raw⟩)) := by
  have hnav : navHandler ev allowedHosts u = handleLinks allowedHosts u := by
    cases ev <;> rfl
  rw [hnav]
  exact ⟨handleLinks_host3_spec allowedHosts h3 h8 u hg3 hg8 hne,
         handleLinks_host8_spec allowedHosts h3 h8 u hg3 hg8 hne⟩

/-- C2 witness: on the modelled list, `/login` on the index-3 host stays
in-app while `/settings` on the same host is redirected externally. -/
theorem handleLinks_path_exclusions_witness :
    ALLOWED_HOSTS.get? 3 = some "github.com" ∧
    ALLOWED_HOSTS.get? 8 = some "twitter.com" ∧
    navHandler .willNavigate ALLOWED_HOSTS
      ⟨"https://github.com/login", "github.com", "/login"⟩ = ⟨false, none⟩ :=
  ⟨by decide, by decide,
   ((handleLinks_path_exclusions .willNavigate ALLOWED_HOSTS
       "github.com" "twitter.com"
       ⟨"https://github.com/login", "github.com", "/login"⟩
       (by decide) (by decide) (by decide)).1 rfl).1 (Or.inl rfl)⟩

/-- C3 counterexample: the claim says navigation to an excluded path (such as
`/login` on the index-3 host) triggers external-open and other paths do not;
on the code it is the reverse: `/login` stays in-app (no external open) while
`/dogehouse` on the same host is opened externally. -/
theorem handleLinks_excluded_path_counterexample :
    ALLOWED_HOSTS.get? 3 = some "github.com" ∧
    (navHandler .willNavigate ALLOWED_HOSTS
       ⟨"https://github.com/login", "github.com", "/login"⟩).openedExternal
      = none ∧
    (navHandler .willNavigate ALLOWED_HOSTS
       ⟨"https://github.com/dogehouse", "github.com",
        "/dogehouse"⟩).openedExternal
      = some "https://github.com/dogehouse" := by
  refine ⟨by decide, ?_, ?_⟩ <;> decide

/-- C3 amended: for the allow-listed hosts with path exclusions, navigation to
an excluded path does not trigger external-open (it stays in-app), while
navigation to any other path on that host does trigger external-open of the
URL. -/
theorem handleLinks_excluded_path_externalOpen
    (ev : NavEvent) (allowedHosts : List String) (h3 h8 : String) (u : URL)
    (hg3 : allowedHosts.get? 3 = some h3)
    (hg8 : allowedHosts.get? 8 = some h8)
    (hne : h3 ≠ h8) :
    (u.hostname = h3 →
      (u.pathname = "/login" ∨ u.pathname = "/session" ∨
         u.pathname = "/sessions/two-factor" ∨
         u.pathname = "/sessions/two-factor/webauthn" →
         (navHandler ev allowedHosts u).openedExternal = none) ∧
      (u.pathname ≠ "/login" → u.pathname ≠ "/session" →
         u.pathname ≠ "/sessions/two-factor" →
         u.pathname ≠ "/sessions/two-factor/webauthn" →
         (navHandler ev allowedHosts u).openedExternal = some u.raw)) ∧
    (u.hostname = h8 →
      (u.pathname = "/account/login_verification" →
         (navHandler ev allowedHosts u).openedExternal = none) ∧
      (u.pathname ≠ "/account/login_verification" →
         (navHandler ev allowedHosts u).openedExternal = some u.raw)) := by
  have hnav : navHandler ev allowedHosts u = handleLinks allowedHosts u := by
    cases ev <;> rfl
  have hs3 := handleLinks_host3_spec allowedHosts h3 h8 u hg3 hg8 hne
  have hs8 := handleLinks_host8_spec allowedHosts h3 h8 u hg3 hg8 hne
  refine ⟨fun hu => ⟨fun hp => ?_, fun hl hs ht hw => ?_⟩,
          fun hu => ⟨fun hp => ?_, fun hv => ?_⟩⟩
  · rw [hnav, (hs3 hu).1 hp]
  · rw [hnav, (hs3 hu).2 hl hs ht hw]
  · rw [hnav, (hs8 hu).1 hp]
  · rw [hnav, (hs8 hu).2 hv]

/-- C3 amended witness: on the modelled list,
`/account/login_verification` on the index-8 host is not opened externally,
and `/home` on that host is. -/
theorem handleLinks_excluded_path_externalOpen_witness :
    ALLOWED_HOSTS.get? 8 = some "twitter.com" ∧
    (navHandler .newWindow ALLOWED_HOSTS
       ⟨"https://twitter.com/home", "twitter.com", "/home"⟩).openedExternal
      = some "https://twitter.com/home" :=
  ⟨by decide,
   ((handleLinks_excluded_path_externalOpen .newWindow ALLOWED_HOSTS
       "github.com" "twitter.com"
       ⟨"https://twitter.com/home", "twitter.com", "/home"⟩
       (by decide) (by decide) (by decide)).2 rfl).2 (by decide)⟩

/-! ## Splash-to-main handoff (`skipUpdateCheck` timers, electron.ts lines 101-103
and 260-280)

The script sets `shouldShowWindow` on the main window's one-shot
`ready-to-show` event, polls it with a `setInterval` of 1000 ms, and on the
first poll that observes the flag it clears the interval and schedules a
`setTimeout` of 800 ms, whose callback destroys the splash window and shows
the main window.  We embed this as a step function over a state carrying the
current time, the flag, the interval, the pending timeout, and (as ghost data)
the times at which the flag was set and observed. -/

structure SplashHandoffState where
  now : Nat
  shouldShowWindow : Bool
  intervalActive : Bool
  nextPoll : Nat
  showTimeout : Option Nat
  splashDestroyed : Bool
  mainShown : Bool
  readyAt : Option Nat
  observedAt : Option Nat
deriving DecidableEq, Repr

/-- State right after `skipUpdateCheck` returns: the window is not yet ready
(line 41: `let shouldShowWindow = false`), the interval is armed with its
first tick 1000 ms ahead (line 270), nothing is shown or destroyed. -/
def initialHandoffState : SplashHandoffState :=
  { now := 0
    shouldShowWindow := false
    intervalActive := true
    nextPoll := 1000
    showTimeout := none
    splashDestroyed := false
    mainShown := false
    readyAt := none
    observedAt := none }

/-- The three event-loop callbacks involved in the handoff, stamped with the
time at which the loop runs them. -/
inductive HandoffEvent
  | readyToShow (t : Nat)
  | pollTick (t : Nat)
  | timeoutFire (t : Nat)
deriving DecidableEq, Repr

/-- One event-loop dispatch.  `ready-to-show` is a `once` handler setting the
flag (lines 101-103); a poll tick runs only while the interval is armed and at
its scheduled time, and on observing the flag clears the interval and
schedules the 800 ms timeout (lines 270-279); the timeout callback destroys
the splash and shows the main window (lines 274-277).  Events that are not
actually scheduled (wrong time, cleared timer, second `ready-to-show`) leave
the state unchanged. -/
def handoffStep (s : SplashHandoffState) (e : HandoffEvent) : SplashHandoffState :=
  match e with
  | .readyToShow t =>
      if s.now ≤ t ∧ s.readyAt = none then
        { s with now := t, shouldShowWindow := true, readyAt := some t }
      else s
  | .pollTick t =>
      if s.now ≤ t ∧ s.intervalActive = true ∧ t = s.nextPoll then
        if s.shouldShowWindow then
          { s with now := t, intervalActive := false,
                   observedAt := some t, showTimeout := some (t + 800) }
        else
          { s with now := t, nextPoll := t + 1000 }
      else s
  | .timeoutFire t =>
      if s.now ≤ t ∧ s.showTimeout = some t then
        { s with now := t, showTimeout := none,
                 splashDestroyed := true, mainShown := true }
      else s

/-- Running the event loop from the post-`skipUpdateCheck` state. -/
def handoffRun (events : List HandoffEvent) : SplashHandoffState :=
  events.foldl handoffStep initialHandoffState

/-- Inductive invariant of the handoff state machine. -/
def HandoffInv (s : SplashHandoffState) : Prop :=
  (s.shouldShowWindow = true ↔ s.readyAt.isSome) ∧
  (∀ t, s.readyAt = some t → t ≤ s.now) ∧
  (∀ t, s.observedAt = some t →
      t ≤ s.now ∧ ∃ r, s.readyAt = some r ∧ r ≤ t) ∧
  (∀ t, s.showTimeout = some t →
      s.now ≤ t ∧ ∃ o, s.observedAt = some o ∧ t = o + 800) ∧
  (s.mainShown = true → s.splashDestroyed = true ∧
      ∃ o, s.observedAt = some o ∧ o + 800 ≤ s.now) ∧
  (s.splashDestroyed = true → s.mainShown = true) ∧
  (s.intervalActive = true →
      s.observedAt = none ∧ s.showTimeout = none ∧ s.mainShown = false) ∧
  (∀ t, s.showTimeout = some t → s.intervalActive = false)

theorem handoffInv_initial : HandoffInv initialHandoffState := by
  refine ⟨by simp [initialHandoffState], ?_, ?_, ?_, ?_, ?_, ?_, ?_⟩ <;>
    simp [initialHandoffState]

theorem handoffInv_step (s : SplashHandoffState) (e : HandoffEvent)
    (hinv : HandoffInv s) : HandoffInv (handoffStep s e) := by
  obtain ⟨i1, i2, i3, i4, i5, i6, i7, i8⟩ := hinv
  cases e with
  | readyToShow t =>
    rw [handoffStep]
    split
    case isFalse => exact ⟨i1, i2, i3, i4, i5, i6, i7, i8⟩
    case isTrue h =>
      obtain ⟨hle, hnone⟩ := h
      have hobs : s.observedAt = none := by
        cases hob : s.observedAt with
        | none => rfl
        | some o =>
          obtain ⟨-, r, hr, -⟩ := i3 o hob
          rw [hnone] at hr
          exact absurd hr (by simp)
      refine ⟨?_, ?_, ?_, ?_, ?_, ?_, ?_, ?_⟩ <;> dsimp only
      · simp
      · intro u hu
        cases hu
        exact Nat.le_refl t
      · intro u hu
        rw [hobs] at hu
        cases hu
      · intro u hu
        obtain ⟨-, o, ho, -⟩ := i4 u hu
        rw [hobs] at ho
        cases ho
      · intro hm
        obtain ⟨-, o, ho, -⟩ := i5 hm
        rw [hobs] at ho
        cases ho
      · intro hd
        exact i6 hd
      · intro ha
        obtain ⟨-, h2, h3⟩ := i7 ha
        exact ⟨hobs, h2, h3⟩
      · intro u hu
        exact i8 u hu
  | pollTick t =>
    rw [handoffStep]
    split
    case isFalse => exact ⟨i1, i2, i3, i4, i5, i6, i7, i8⟩
    case isTrue h =>
      obtain ⟨hle, hact, -⟩ := h
      obtain ⟨hobs, htim, hshow⟩ := i7 hact
      split
      case isFalse hflag =>
        refine ⟨?_, ?_, ?_, ?_, ?_, ?_, ?_, ?_⟩ <;> dsimp only
        · exact i1
        · intro u hu
          exact le_trans (i2 u hu) hle
        · intro u hu
          rw [hobs] at hu
          cases hu
        · intro u hu
          rw [htim] at hu
          cases hu
        · intro hm
          rw [hshow] at hm
          cases hm
        · intro hd
          rw [i6 hd] at hshow
          cases hshow
        · intro ha
          exact ⟨hobs, htim, hshow⟩
        · intro u hu
          rw [htim] at hu
          cases hu
      case isTrue hflag =>
        obtain ⟨r, hr⟩ := Option.isSome_iff_exists.mp (i1.mp hflag)
        refine ⟨?_, ?_, ?_, ?_, ?_, ?_, ?_, ?_⟩ <;> dsimp only
        · exact i1
        · intro u hu
          exact le_trans (i2 u hu) hle
        · intro u hu
          cases hu
          exact ⟨Nat.le_refl t, r, hr, le_trans (i2 r hr) hle⟩
        · intro u hu
          cases hu
          exact ⟨Nat.le_add_right t 800, t, rfl, rfl⟩
        · intro hm
          rw [hshow] at hm
          cases hm
        · intro hd
          rw [i6 hd] at hshow
          cases hshow
        · intro ha
          cases ha
        · intro u hu
          rfl
  | timeoutFire t =>
    rw [handoffStep]
    split
    case isFalse => exact ⟨i1, i2, i3, i4, i5, i6, i7, i8⟩
    case isTrue h =>
      obtain ⟨hle, htim⟩ := h
      obtain ⟨-, o, ho, hto⟩ := i4 t htim
      have hina : s.intervalActive = false := i8 t htim
      refine ⟨?_, ?_, ?_, ?_, ?_, ?_, ?_, ?_⟩ <;> dsimp only
      · exact i1
      · intro u hu
        exact le_trans (i2 u hu) hle
      · intro u hu
        obtain ⟨hun, r, hr, hru⟩ := i3 u hu
        exact ⟨le_trans hun hle, r, hr, hru⟩
      · intro u hu
        cases hu
      · intro hm
        exact ⟨rfl, o, ho, by omega⟩
      · intro hd
        rfl
      · intro ha
        rw [hina] at ha
        cases ha
      · intro u hu
        cases hu

theorem handoffInv_run (events : List HandoffEvent) (s : SplashHandoffState)
    (hinv : HandoffInv s) : HandoffInv (events.foldl handoffStep s) := by
  induction events generalizing s with
  | nil => exact hinv
  | cons e es ih => exact ih (handoffStep s e) (handoffInv_step s e hinv)

/-- C4: in every execution of the splash-to-main handoff, the main window is
shown only after the `ready-to-show` flag has been set (time `r`), then
observed by a poll tick of the once-per-second interval (time `o ≥ r`), and a
further fixed 800 ms delay has elapsed (`o + 800 ≤ now`); at that point the
splash window has been destroyed together with showing the main window. -/
theorem handoff_mainShown_after_ready_and_delay
    (events : List HandoffEvent)
    (h : (handoffRun events).mainShown = true) :
    ∃ r o, (handoffRun events).readyAt = some r ∧
      (handoffRun events).observedAt = some o ∧
      r ≤ o ∧ o + 800 ≤ (handoffRun events).now ∧
      (handoffRun events).splashDestroyed = true := by
  have hinv := handoffInv_run events initialHandoffState handoffInv_initial
  obtain ⟨-, -, i3, -, i5, -, -, -⟩ := hinv
  obtain ⟨hdest, o, ho, hdelay⟩ := i5 h
  obtain ⟨-, r, hr, hro⟩ := i3 o ho
  exact ⟨r, o, hr, ho, hro, hdelay, hdest⟩

/-- C4 witness: a concrete run — ready at 500 ms, first poll at 1000 ms
observes the flag, timeout fires at 1800 ms — shows the main window with the
claimed ordering. -/
theorem handoff_mainShown_after_ready_and_delay_witness :
    (handoffRun [.readyToShow 500, .pollTick 1000, .timeoutFire 1800]).mainShown
      = true ∧
    ∃ r o,
      (handoffRun [.readyToShow 500, .pollTick 1000,
          .timeoutFire 1800]).readyAt = some r ∧
      (handoffRun [.readyToShow 500, .pollTick 1000,
          .timeoutFire 1800]).observedAt = some o ∧
      r ≤ o ∧
      o + 800 ≤ (handoffRun [.readyToShow 500, .pollTick 1000,
          .timeoutFire 1800]).now ∧
      (handoffRun [.readyToShow 500, .pollTick 1000,
          .timeoutFire 1800]).splashDestroyed = true :=
  ⟨by decide,
   handoff_mainShown_after_ready_and_delay
     [.readyToShow 500, .pollTick 1000, .timeoutFire 1800] (by decide)⟩

/-! ## Single-instance gate (electron.ts lines 40 and 228-247) -/

/-- Actions the `second-instance` handler can take on the existing window.
`createMain` (running `createMainWindow`) is in the vocabulary so that its
absence is a meaningful statement. -/
inductive WinAction
  | close
  | restore
  | focus
  | createMain
deriving DecidableEq, Repr

/-- Embedding of the `second-instance` handler (electron.ts lines 240-246):
if a main window exists, close it under `process.env.hotReload`, otherwise
restore it when minimized and focus it; with no main window, do nothing. -/
def secondInstanceHandler (mainExists hotReload isMinimized : Bool) :
    List WinAction :=
  if mainExists then
    if hotReload then [.close]
    else (if isMinimized then [.restore] else []) ++ [.focus]
  else []

/-- C5: the `second-instance` event never creates a second main window — the
handler never performs `createMain`; when hot-reload is set it only closes the
existing window, and otherwise it only restores (when minimized) and focuses
it. -/
theorem secondInstance_never_creates_window
    (mainExists hotReload isMinimized : Bool) :
    WinAction.createMain ∉ secondInstanceHandler mainExists hotReload isMinimized ∧
    (hotReload = true →
      secondInstanceHandler true hotReload isMinimized = [.close]) ∧
    (hotReload = false →
      secondInstanceHandler true hotReload isMinimized =
        (if isMinimized then [.restore] else []) ++ [.focus]) := by
  cases mainExists <;> cases hotReload <;> cases isMinimized <;> decide

/-- C5 witness: with a live window, hot reload off and the window minimized,
the handler restores and focuses; it does not create a window. -/
theorem secondInstance_never_creates_window_witness :
    WinAction.createMain ∉ secondInstanceHandler true false true ∧
    secondInstanceHandler true false true = [.restore, .focus] :=
  ⟨(secondInstance_never_creates_window true false true).1,
   (secondInstance_never_creates_window true false true).2.2 rfl⟩

/-- Process-level actions of the top-level instance-lock branch. -/
inductive AppAction
  | relaunch
  | exitApp
  | registerReadyHandler
  | registerSecondInstanceHandler
  | createMain
  | createSplash
deriving DecidableEq, Repr

/-- Embedding of the top-level gate on `app.requestSingleInstanceLock()`
(electron.ts lines 228-247): without the lock, relaunch under
`process.env.hotReload` and then exit via `exitApp`; with the lock, register
the `ready` and `second-instance` handlers (window creation happens only
later, inside the `ready` handler). -/
def instanceGate (gotLock hotReload : Bool) : List AppAction :=
  if !gotLock then
    (if hotReload then [.relaunch] else []) ++ [.exitApp]
  else
    [.registerReadyHandler, .registerSecondInstanceHandler]

/-- C6: failing to acquire the single-instance lock exits the process without
creating any window, and in development mode (`hotReload` set) a relaunch is
requested first, before the exit. -/
theorem instanceGate_lockFailure_exits
    (hotReload : Bool) :
    AppAction.exitApp ∈ instanceGate false hotReload ∧
    AppAction.createMain ∉ instanceGate false hotReload ∧
    AppAction.createSplash ∉ instanceGate false hotReload ∧
    (hotReload = true → instanceGate false hotReload = [.relaunch, .exitApp]) ∧
    (hotReload = false → instanceGate false hotReload = [.exitApp]) := by
  cases hotReload <;> decide

/-- C6 witness: in hot-reload mode the lock failure path is relaunch followed
by exit, with no window creation. -/
theorem instanceGate_lockFailure_exits_witness :
    AppAction.exitApp ∈ instanceGate false true ∧
    instanceGate false true = [.relaunch, .exitApp] :=
  ⟨(instanceGate_lockFailure_exits true).1,
   (instanceGate_lockFailure_exits true).2.2.2.1 rfl⟩

/-! ## IPC handlers (electron.ts lines 106-111 and 170-184) -/

/-- Observable behaviour of one run of the `request-mic` handler: how many
times `systemPreferences.askForMediaAccess("microphone")` was awaited, and
the reply placed in `event.returnValue`. -/
structure MicReply where
  askCalls : Nat
  returnValue : Bool
deriving DecidableEq, Repr

/-- Embedding of the `request-mic` IPC handler (electron.ts lines 106-111):
one await of the permission request, whose boolean result is the reply. -/
def handleRequestMic (askForMediaAccessResult : Bool) : MicReply :=
  { askCalls := 1, returnValue := askForMediaAccessResult }

/-- C7: the `request-mic` handler replies with exactly the boolean result of
the single microphone permission request — `true` iff access was granted —
with no retry; denial surfaces only as the value `false`. -/
theorem requestMic_reply_is_permission_result (granted : Bool) :
    (handleRequestMic granted).askCalls = 1 ∧
    ((handleRequestMic granted).returnValue = true ↔ granted = true) ∧
    ((handleRequestMic granted).returnValue = false ↔ granted = false) := by
  cases granted <;> decide

/-- The possible state changes performed by the `@app/maximize` handler. -/
inductive MaximizeAction
  | setFullScreen (flag : Bool)
  | maximize
  | unmaximize
  | noChange
deriving DecidableEq, Repr

/-- The window capabilities and state the `@app/maximize` handler queries. -/
structure WindowState where
  isFullScreenable : Bool
  isFullScreen : Bool
  maximizable : Bool
  isMaximized : Bool
deriving DecidableEq, Repr

/-- Embedding of the `@app/maximize` IPC handler (electron.ts lines 170-184):
on macOS, toggle full screen only when the window is full-screenable; on other
platforms, only when maximizable, unmaximize when maximized and maximize
otherwise. -/
def appMaximizeHandler (isMac : Bool) (w : WindowState) : MaximizeAction :=
  if isMac then
    if w.isFullScreenable then .setFullScreen (!w.isFullScreen) else .noChange
  else
    if w.maximizable then
      if w.isMaximized then .unmaximize else .maximize
    else .noChange

/-- C10: `@app/maximize` is a guarded toggle, not an unconditional maximize:
on macOS it flips the full-screen state only when the window is
full-screenable; elsewhere, only when maximizable, it unmaximizes a maximized
window and maximizes otherwise; when the respective capability guard is false
the window state is left unchanged. -/
theorem appMaximize_guarded_toggle (isMac : Bool) (w : WindowState) :
    (isMac = true → w.isFullScreenable = true →
      appMaximizeHandler isMac w = .setFullScreen (!w.isFullScreen)) ∧
    (isMac = true → w.isFullScreenable = false →
      appMaximizeHandler isMac w = .noChange) ∧
    (isMac = false → w.maximizable = true → w.isMaximized = true →
      appMaximizeHandler isMac w = .unmaximize) ∧
    (isMac = false → w.maximizable = true → w.isMaximized = false →
      appMaximizeHandler isMac w = .maximize) ∧
    (isMac = false → w.maximizable = false →
      appMaximizeHandler isMac w = .noChange) := by
  obtain ⟨fs, f, m, mx⟩ := w
  cases isMac <;> cases fs <;> cases f <;> cases m <;> cases mx <;> decide

/-- C10 witness: on macOS with a full-screenable window currently not in full
screen, the handler enters full screen. -/
theorem appMaximize_guarded_toggle_witness :
    appMaximizeHandler true ⟨true, false, true, false⟩ =
      .setFullScreen true :=
  (appMaximize_guarded_toggle true ⟨true, false, true, false⟩).1 rfl rfl

/-! ## Update-check stub (`skipUpdateCheck`, electron.ts lines 260-265) -/

/-- Embedding of the messages `skipUpdateCheck` sends to the splash window's
webContents, in order (electron.ts lines 262-265): always `notfound`, then
`skipCheck` when on Linux or in a non-packaged build (`__prod__` is
`app.isPackaged`, line 39). -/
def skipUpdateCheckMessages (isLinux isPackaged : Bool) : List String :=
  ["notfound"] ++ (if isLinux || !isPackaged then ["skipCheck"] else [])

/-- C8: the update check is stubbed — `skipUpdateCheck` always sends
`notfound` to the splash window, and sends `skipCheck` exactly when running
on Linux or in a non-packaged (development) build. -/
theorem skipUpdateCheck_always_notfound (isLinux isPackaged : Bool) :
    "notfound" ∈ skipUpdateCheckMessages isLinux isPackaged ∧
    ("skipCheck" ∈ skipUpdateCheckMessages isLinux isPackaged ↔
      (isLinux = true ∨ isPackaged = false)) := by
  cases isLinux <;> cases isPackaged <;> decide

/-! ## Window creation options (electron.ts lines 67-80 and 200-211) -/

/-- The geometry-relevant options passed to `new BrowserWindow` for the main
window (electron.ts lines 68-80). -/
structure MainWindowOptions where
  width : Nat
  height : Nat
  minWidth : Nat
  minHeight : Nat
  autoHideMenuBar : Bool
  frame : Bool
  «show» : Bool
deriving DecidableEq, Repr

/-- Embedding of the main-window creation options (electron.ts lines 68-80). -/
def mainWindowOptions (isLinux : Bool) : MainWindowOptions :=
  { width := 1500
    height := 800
    minWidth := 400
    minHeight := 600
    autoHideMenuBar := true
    frame := isLinux
    «show» := false }

/-- The geometry-relevant options passed to `new BrowserWindow` for the
splash window (electron.ts lines 201-211). -/
structure SplashWindowOptions where
  width : Nat
  height : Nat
  transparent : Bool
  frame : Bool
  resizable : Bool
deriving DecidableEq, Repr

/-- Embedding of the splash-window creation options (electron.ts lines
201-211).  Note line 206: `resizable: true`. -/
def splashWindowOptions : SplashWindowOptions :=
  { width := 290
    height := 400
    transparent := true
    frame := false
    resizable := true }

/-- C9 counterexample: the claim states the splash window is created with a
fixed size, i.e. not resizable; the creation options set `resizable` to
`true` (electron.ts line 206), refuting the "not resizable" part. -/
theorem splash_not_resizable_counterexample :
    splashWindowOptions.resizable = true ∧
    ¬ splashWindowOptions.resizable = false := ⟨rfl, by decide⟩

/-- C9 amended: the main window is created with fixed width 1500, height 800
and minimum bounds 400x600, and the splash window is created with width 290,
height 400, frameless and transparent — but with the `resizable` option set
to `true`. -/
theorem window_geometry_defaults (isLinux : Bool) :
    (mainWindowOptions isLinux).width = 1500 ∧
    (mainWindowOptions isLinux).height = 800 ∧
    (mainWindowOptions isLinux).minWidth = 400 ∧
    (mainWindowOptions isLinux).minHeight = 600 ∧
    splashWindowOptions.width = 290 ∧
    splashWindowOptions.height = 400 ∧
    splashWindowOptions.frame = false ∧
    splashWindowOptions.transparent = true ∧
    splashWindowOptions.resizable = true := by
  cases isLinux <;> decide

end Baklava
